import Mathlib

/-
Shallow embedding of the metadata reconciliation engine of
`airflow/dags/kernel_gate.py` (opac-airflow).

The Python code manipulates JSON-like values (strings, ints, lists, dicts
and None).  `Value` embeds those values; a Python dict is an association
list with distinct keys, in insertion order.
-/

namespace KernelGate

/-- A Python/JSON value as manipulated by kernel_gate.py: None, str, int,
list, dict (association list in insertion order). -/
inductive Value where
  | null : Value
  | str : String → Value
  | int : Int → Value
  | list : List Value → Value
  | map : List (String × Value) → Value

/-- A payload is a Python dict from field name to value (insertion order). -/
abbrev Payload := List (String × Value)

mutual

/-- Size measure for fuelled recursion over `Value`. -/
def vsize : Value → Nat
  | .null => 1
  | .str _ => 1
  | .int _ => 1
  | .list a => 1 + lsize a
  | .map a => 1 + msize a

/-- Size measure for lists of values. -/
def lsize : List Value → Nat
  | [] => 1
  | v :: vs => 1 + vsize v + lsize vs

/-- Size measure for association lists. -/
def msize : List (String × Value) → Nat
  | [] => 1
  | kv :: rest => 1 + vsize kv.2 + msize rest

end

/-- Python truthiness of a value: None, "", 0, [] and the empty dict are
falsy, everything else is truthy. -/
def pyTruthyV : Value → Bool
  | .null => false
  | .str s => !(s == "")
  | .int n => !(n == 0)
  | .list l => !l.isEmpty
  | .map m => !m.isEmpty

/-- First binding of key `k` in an association list; models Python dict
lookup (keys are distinct in a dict, so first = only). -/
def lookupV (k : String) : List (String × Value) → Option Value
  | [] => none
  | kv :: rest => if kv.1 == k then some kv.2 else lookupV k rest

/-- Does the association list contain key `k`? -/
def containsKey (k : String) : List (String × Value) → Bool
  | [] => false
  | kv :: rest => kv.1 == k || containsKey k rest

/-- Models Python `d.get(k)`: the value at `k`, or None when absent. -/
def metaGet (k : String) (meta : Payload) : Value :=
  (lookupV k meta).getD .null

/-- Remove the first element satisfying `p`, returning the remaining list;
`none` when no element satisfies `p`. -/
def removeOneP (p : α → Bool) : List α → Option (List α)
  | [] => none
  | x :: xs => if p x then some xs else (removeOneP p xs).map (x :: ·)

/-- Order-insensitive list comparison: every element of the first list is
matched against a distinct element of the second, and nothing remains. -/
def listPermEqWith (eq : Value → Value → Bool) : List Value → List Value → Bool
  | [], ys => ys.isEmpty
  | x :: xs, ys =>
    match removeOneP (eq x) ys with
    | some rest => listPermEqWith eq xs rest
    | none => false

/-- Pointwise (order-sensitive) list comparison. -/
def listEqWith (eq : Value → Value → Bool) : List Value → List Value → Bool
  | [], [] => true
  | x :: xs, y :: ys => eq x y && listEqWith eq xs ys
  | _, _ => false

/-- Dict comparison relative to a value comparison: the two association
lists bind the same keys and, key by key, comparison-equal values. -/
def mapEqWith (eq : Value → Value → Bool) (a b : List (String × Value)) : Bool :=
  a.all (fun kv =>
    match lookupV kv.1 b with
    | some w => eq kv.2 w
    | none => false) &&
  b.all (fun kv => (lookupV kv.1 a).isSome)

/-- Fuelled structural equality with order-insensitive lists and dicts;
models emptiness of `DeepDiff(a, b, ignore_order=True)`. -/
def valueEqD : Nat → Value → Value → Bool
  | 0, _, _ => false
  | _ + 1, .null, .null => true
  | _ + 1, .str a, .str b => a == b
  | _ + 1, .int a, .int b => a == b
  | d + 1, .list a, .list b => listPermEqWith (valueEqD d) a b
  | d + 1, .map a, .map b => mapEqWith (valueEqD d) a b
  | _ + 1, _, _ => false

/-- Fuelled Python `==`: order-sensitive on lists, order-insensitive on
dicts. -/
def pyEqD : Nat → Value → Value → Bool
  | 0, _, _ => false
  | _ + 1, .null, .null => true
  | _ + 1, .str a, .str b => a == b
  | _ + 1, .int a, .int b => a == b
  | d + 1, .list a, .list b => listEqWith (pyEqD d) a b
  | d + 1, .map a, .map b => mapEqWith (pyEqD d) a b
  | _ + 1, _, _ => false

/-- Python `a == b` on values (fuel is always sufficient). -/
def pyEqV (a b : Value) : Bool :=
  pyEqD (vsize a + vsize b + 1) a b

/-- `DeepDiff(meta, payload, ignore_order=True)` is empty: the two dicts
are structurally equal up to list reordering. -/
def diffEmpty (a b : Payload) : Bool :=
  mapEqWith (valueEqD (msize a + msize b + 1)) a b

/-- The filter condition of the 200-branch of `register_or_update`:
`_metadata.get(k) or _metadata.get(k) == v or v`. -/
def keepCond (meta : Payload) (kv : String × Value) : Bool :=
  pyTruthyV (metaGet kv.1 meta) || pyEqV (metaGet kv.1 meta) kv.2 || pyTruthyV kv.2

/-- The filtered payload built in the 200-branch of `register_or_update`. -/
def filterPayload (meta : Payload) (payload : Payload) : Payload :=
  payload.filter (keepCond meta)

/-- The falsy-key stripping of the 404-branch of `register_or_update`:
keep exactly the pairs whose value is truthy. -/
def stripFalsy (payload : Payload) : Payload :=
  payload.filter (fun kv => pyTruthyV kv.2)

/-- The probe response of the GET issued by `register_or_update`; the
`metadata` field models `response.json()["metadata"]` and is meaningful
only when `status = 200`. -/
structure ProbeResponse where
  status : Nat
  metadata : Payload

/-- The write issued by `register_or_update` after the probe, if any. -/
inductive WriteAction where
  | put : Payload → WriteAction
  | patch : Payload → WriteAction
  | nothing : WriteAction

/-- What one `register_or_update` call does: the write it issues and the
status of the response object it returns to its caller. -/
structure ROUResult where
  action : WriteAction
  status : Nat

/-- `register_or_update(_id, payload, entity_url)` as a function of the
probe response; `writeStatus` is the status of the PUT/PATCH response when
a write is issued (supplied by the environment).  Mirrors the branch
structure of the source: 404 strips falsy keys and PUTs; 200 filters the
payload, diffs, and PATCHes only on a non-empty diff; any other status
issues no write and returns the probe response unchanged. -/
def register_or_update (payload : Payload) (probe : ProbeResponse)
    (writeStatus : Nat) : ROUResult :=
  if probe.status == 404 then
    ⟨.put (stripFalsy payload), writeStatus⟩
  else if probe.status == 200 then
    let fp := filterPayload probe.metadata payload
    if diffEmpty probe.metadata fp then ⟨.nothing, probe.status⟩
    else ⟨.patch fp, writeStatus⟩
  else ⟨.nothing, probe.status⟩

/-- The remote store's state for one entity id. -/
inductive Remote where
  | absent : Remote
  | present : Payload → Remote

/-- The probe response the remote store produces when not mutated by third
parties: 404 when absent, 200 with the stored metadata when present
(external store interface of the spec). -/
def probeOf : Remote → ProbeResponse
  | .absent => ⟨404, []⟩
  | .present m => ⟨200, m⟩

/-- Python dict update: existing keys are overwritten in place, new keys
appended; models the store merging a PATCH body into the entity. -/
def mergePatch (m body : Payload) : Payload :=
  (m.map (fun kv =>
    match lookupV kv.1 body with
    | some w => (kv.1, w)
    | none => kv)) ++
  body.filter (fun kv => !(containsKey kv.1 m))

/-- Effect of a write on the remote entity: PUT replaces the document,
PATCH merges into it, no write leaves it unchanged. -/
def applyAction : WriteAction → Remote → Remote
  | .nothing, r => r
  | .put body, _ => .present body
  | .patch body, .absent => .present body
  | .patch body, .present m => .present (mergePatch m body)

/-
Record normalizers.  The xylose record accessors (an external library,
the "legacy decoder" collaborator) return either a string or None; they
are embedded as explicit record fields of type `Option String` (None =
`none`), lists for the multilingual / repeated fields.
-/

/-- Python `x or ""` on an optional string. -/
def orEmpty : Option String → String
  | none => ""
  | some s => s

/-- Python `a or b` where `a` is an optional string and `b` a string:
`b` when `a` is None or empty, else the contents of `a`. -/
def orStr (a : Option String) (b : String) : String :=
  match a with
  | none => b
  | some s => if s == "" then b else s

/-- Truthiness of an optional string (None and "" are falsy). -/
def pyTruthyS (a : Option String) : Bool :=
  !(orEmpty a == "")

/-- Drop a falsy optional string to `none`, keep a truthy one. -/
def optTruthy : Option String → Option String
  | none => none
  | some s => if s == "" then none else some s

/-- Python `value.isdigit()` restricted to decimal digits: non-empty and
all decimal digits.  This is the restriction of `pyIsdigit` (below) to
the domain on which the subsequent `int(value)` cannot raise; the two
agree on every component that does not trigger the ValueError. -/
def isdigitStr (s : String) : Bool :=
  !(s == "") && s.toList.all Char.isDigit

/-- Decimal value of a digit string (the `int(value)` of a decimal-digit
value). -/
def digitsToNat (l : List Char) : Nat :=
  l.foldl (fun acc c => acc * 10 + (c.toNat - 48)) 0

/-- `str(int(value))` applied to an all-decimal-digit string: strip
leading zeros via integer round-trip.  Total restriction of the
normalization to the non-raising domain; `digitNormalizeE` (below)
carries the error path. -/
def digitNormalize (value : String) : String :=
  if isdigitStr value then toString (digitsToNat value.toList) else value

/-- Python `"-".join(parts)`. -/
def joinDash : List String → String
  | [] => ""
  | [x] => x
  | x :: xs => x ++ "-" ++ joinDash xs

/-- `issue_id` of kernel_gate.py: append issn and year when truthy, then
each of volume ("v"), number ("n"), supplement ("s") when truthy, with
all-digit values normalized by integer round-trip, and join with "-".
Total restriction to the components on which `int()` cannot raise;
`issue_idE` (below) is the same function with the ValueError path, and
the two agree on every input satisfying `noIntErrorOpt`. -/
def issue_id (issn_id year volume number supplement : Option String) : String :=
  let front := [issn_id, year].filterMap optTruthy
  let tagged := [(volume, "v"), (number, "n"), (supplement, "s")].filterMap
    (fun vp => (optTruthy vp.1).map (fun s => vp.2 ++ digitNormalize s))
  joinDash (front ++ tagged)

/-- A legacy journal record as surfaced by the xylose accessors used in
`journal_as_kernel` (status history entries are (date, status, reason)). -/
structure JournalRec where
  any_issn : Option String
  scielo_issn : Option String
  mission : List (String × String)
  title : Option String
  abbreviated_iso_title : Option String
  abbreviated_title : Option String
  acronym : Option String
  print_issn : Option String
  electronic_issn : Option String
  status_history : List (String × String × String)
  subject_areas : List String
  sponsors : List String
  wos_subject_areas : List String
  submission_url : Option String
  next_title : Option String
  previous_title : Option String
  editor_email : Option String
  editor_address : Option String

/-- The `_id` value of a journal payload: `journal.any_issn()` when
truthy, else `journal.scielo_issn` as-is (None becomes Python None). -/
def idValue (j : JournalRec) : Value :=
  match optTruthy j.any_issn with
  | some s => .str s
  | none =>
    match j.scielo_issn with
    | some s => .str s
    | none => .null

/-- The `status` sub-dict: from the last status-history entry, with
`reason` added only when truthy; empty dict when there is no history. -/
def statusValue (j : JournalRec) : Value :=
  match j.status_history.getLast? with
  | none => .map []
  | some st =>
    .map ([("status", .str st.2.1)] ++
      (if st.2.2 == "" then [] else [("reason", .str st.2.2)]))

/-- The subject-area rewrite of kernel_gate.py: the one mislabelled value
is replaced, then the result upper-cased. -/
def normalizeSubjectArea (sa : String) : String :=
  let sa := if sa.toUpper == "LINGUISTICS, LETTERS AND ARTS" then
    "LINGUISTIC, LITERATURE AND ARTS" else sa
  sa.toUpper

/-- The `contact` sub-dict: email and address added independently when
truthy. -/
def contactValue (j : JournalRec) : Value :=
  .map ((match optTruthy j.editor_email with
          | some e => [("email", .str e)]
          | none => []) ++
        (match optTruthy j.editor_address with
          | some a => [("address", .str a)]
          | none => []))

/-- `journal_as_kernel` of kernel_gate.py: every schema key is assigned
unconditionally, in source order. -/
def journal_as_kernel (j : JournalRec) : Payload :=
  [("_id", idValue j),
   ("mission", .list (j.mission.map
      (fun lv => .map [("language", .str lv.1), ("value", .str lv.2)]))),
   ("title", .str (orEmpty j.title)),
   ("title_iso", .str (orEmpty j.abbreviated_iso_title)),
   ("short_title", .str (orEmpty j.abbreviated_title)),
   ("acronym", .str (orEmpty j.acronym)),
   ("scielo_issn", .str (orEmpty j.scielo_issn)),
   ("print_issn", .str (orEmpty j.print_issn)),
   ("electronic_issn", .str (orEmpty j.electronic_issn)),
   ("status", statusValue j),
   ("subject_areas", .list (j.subject_areas.map
      (fun sa => .str (normalizeSubjectArea sa)))),
   ("sponsors", .list (j.sponsors.map (fun s => .map [("name", .str s)]))),
   ("subject_categories", .list (j.wos_subject_areas.map .str)),
   ("online_submission_url", .str (orEmpty j.submission_url)),
   ("next_journal", .map (match optTruthy j.next_title with
      | some t => [("name", .str t)]
      | none => [])),
   ("previous_journal", .map (match optTruthy j.previous_title with
      | some t => [("name", .str t)]
      | none => [])),
   ("contact", contactValue j)]

/-- A legacy issue record as surfaced by the xylose accessors used in
`issue_as_kernel`; `v35` is the nested journal-ISSN cross reference
(`issue.data["issue"]["v35"][0]["_"]`), `none` when the access raises. -/
structure IssueRec where
  volume : Option String
  number : Option String
  type : String
  supplement_volume : Option String
  supplement_number : Option String
  titles : List (String × String)
  start_month : Option String
  end_month : Option String
  publication_date : String
  v35 : Option String

/-- Split a character list on the dash separator (the shape check the
three strptime formats perform on the date string). -/
def splitDash : List Char → List (List Char)
  | [] => [[]]
  | c :: rest =>
    match splitDash rest with
    | [] => [[]]
    | g :: gs => if c == '-' then [] :: g :: gs else (c :: g) :: gs

/-- A year field accepted by `strptime` `%Y`: 1 to 4 digits, value at
least 1 (datetime.MINYEAR). -/
def validY (y : List Char) : Bool :=
  !y.isEmpty && y.all Char.isDigit && y.length ≤ 4 && 1 ≤ digitsToNat y

/-- A month field accepted by `%m`: 1 or 2 digits, value 1..12. -/
def validM (m : List Char) : Bool :=
  !m.isEmpty && m.all Char.isDigit && m.length ≤ 2 &&
    1 ≤ digitsToNat m && digitsToNat m ≤ 12

/-- A day field accepted by `%d`: 1 or 2 digits, value 1..31 (the
day-in-month coupling of strptime is approximated by the 1..31 range). -/
def validD (d : List Char) : Bool :=
  !d.isEmpty && d.all Char.isDigit && d.length ≤ 2 &&
    1 ≤ digitsToNat d && digitsToNat d ≤ 31

/-- The `parse_date` helper of `issue_as_kernel`, reduced to the year the
caller uses: try year-month-day, then year-month, then year-only; `none`
models the ValueError of the final `strptime`. -/
def parse_date_year (s : String) : Option Nat :=
  match splitDash s.toList with
  | [y, m, d] =>
    if validY y && validM m && validD d then some (digitsToNat y) else none
  | [y, m] => if validY y && validM m then some (digitsToNat y) else none
  | [y] => if validY y then some (digitsToNat y) else none
  | _ => none

/-- `int(s)` for the publication-season months: an optionally negative
decimal literal; `none` models the ValueError raised on a non-numeric
month. -/
def pyInt (s : String) : Option Int :=
  match s.toList with
  | [] => none
  | '-' :: rest =>
    if !rest.isEmpty && rest.all Char.isDigit then
      some (-(digitsToNat rest : Int))
    else none
  | l => if l.all Char.isDigit then some ((digitsToNat l : Nat) : Int) else none

/-- `sorted(set([a, b]))` for the two season months. -/
def seasonSortedSet (a b : Int) : List Int :=
  if a == b then [a] else if a < b then [a, b] else [b, a]

/-- The `publication_season` computation of `issue_as_kernel`: when both
months are truthy, their int values sorted and deduplicated; an error
models the ValueError of `int()` on a non-numeric month. -/
def seasonOf (issue : IssueRec) : Except String (List Int) :=
  if pyTruthyS issue.start_month && pyTruthyS issue.end_month then
    match pyInt (orEmpty issue.start_month), pyInt (orEmpty issue.end_month) with
    | some a, some b => Except.ok (seasonSortedSet a b)
    | _, _ => Except.error "invalid month"
  else Except.ok []

/-- The keys of the issue payload before `_id` is appended, in source
assignment order (`supplement` only for supplement-typed records). -/
def issuePayload0 (issue : IssueRec) (season : List Int) : Payload :=
  [("volume", .str (orEmpty issue.volume)),
   ("number", .str (orEmpty issue.number))] ++
  (if issue.type == "supplement" then
    [("supplement",
      .str (orStr issue.supplement_volume (orStr issue.supplement_number "0")))]
  else []) ++
  [("titles", .list (issue.titles.map
      (fun lv => .map [("language", .str lv.1), ("value", .str lv.2)]))),
   ("publication_season", .list (season.map Value.int))]

/-- `issue_as_kernel` of kernel_gate.py.  Errors model the exceptions the
source can raise while normalizing one issue, in source order: a
non-numeric season month, a missing `v35` cross reference, an unparseable
publication date.  The id computation uses the total restriction
`issue_id`; a truthy digit-property non-decimal volume, number or
supplement component, on which the source's id computation raises, lies
outside the components exercised here (`issue_idE` models that error
path). -/
def issue_as_kernel (issue : IssueRec) : Except String Payload :=
  match seasonOf issue with
  | .error e => .error e
  | .ok season =>
    match issue.v35 with
    | none => .error "missing v35"
    | some issn =>
      match parse_date_year issue.publication_date with
      | none => .error "unparseable date"
      | some year =>
        let payload0 := issuePayload0 issue season
        let suppArg : Option String :=
          match lookupV "supplement" payload0 with
          | some (.str s) => some s
          | _ => none
        .ok (payload0 ++
          [("_id", .str (issue_id (some issn) (some (toString year))
              issue.volume issue.number suppArg))])

/-- `filter_issues` of `process_issues`: drop press releases, then drop
ahead-of-print issues. -/
def filter_issues (issues : List IssueRec) : List IssueRec :=
  (issues.filter (fun i => !(i.type == "pressrelease"))).filter
    (fun i => !(i.type == "ahead"))

/-- The list comprehension over a fallible per-element function: the first
exception propagates and aborts the whole comprehension. -/
def mapExcept (f : α → Except ε β) : List α → Except ε (List β)
  | [] => .ok []
  | x :: xs =>
    match f x with
    | .error e => .error e
    | .ok y =>
      match mapExcept f xs with
      | .error e => .error e
      | .ok ys => .ok (y :: ys)

/-- `payload.pop("_id")`: the popped value and the remaining dict. -/
def popId (p : Payload) : Value × Payload :=
  ((lookupV "_id" p).getD .null, p.filter (fun kv => !(kv.1 == "_id")))

/-- `process_issues` of kernel_gate.py: obtain the input stream (an
`Except` models a failing `xcom_pull`/`json.loads`), filter, normalize
every issue up front in a list comprehension, then reconcile each payload
in order.  `probeFor` gives the probe response per entity id and
`writeStatus` the status of any issued write. -/
def process_issues (raw : Except String (List IssueRec))
    (probeFor : Value → ProbeResponse) (writeStatus : Nat) :
    Except String (List ROUResult) :=
  match raw with
  | .error e => .error e
  | .ok issues =>
    match mapExcept issue_as_kernel (filter_issues issues) with
    | .error e => .error e
    | .ok payloads =>
      .ok (payloads.map (fun p =>
        let ib := popId p
        register_or_update ib.2 (probeFor ib.1) writeStatus))

/-- `process_journals` of kernel_gate.py: same driver shape over the
journal records (journal normalization itself raises only inside the
external decoder, so it is total here). -/
def process_journals (raw : Except String (List JournalRec))
    (probeFor : Value → ProbeResponse) (writeStatus : Nat) :
    Except String (List ROUResult) :=
  match raw with
  | .error e => .error e
  | .ok journals =>
    .ok ((journals.map journal_as_kernel).map (fun p =>
      let ib := popId p
      register_or_update ib.2 (probeFor ib.1) writeStatus))

/-
Well-formedness of embedded Python values: every dict (at any depth) has
distinct keys, as Python dicts do by construction.
-/

mutual

/-- Every dict nested in the value has distinct keys. -/
def wfValue : Value → Bool
  | .null => true
  | .str _ => true
  | .int _ => true
  | .list a => wfList a
  | .map a => wfMap a

/-- `wfValue` on every element. -/
def wfList : List Value → Bool
  | [] => true
  | v :: vs => wfValue v && wfList vs

/-- Distinct keys at this level and `wfValue` on every value. -/
def wfMap : List (String × Value) → Bool
  | [] => true
  | kv :: rest => !(containsKey kv.1 rest) && wfValue kv.2 && wfMap rest

end

/-- No binding of the dict is Python None (canonical payloads never bind
None at top level). -/
def noNullTop (p : Payload) : Bool :=
  p.all (fun kv =>
    match kv.2 with
    | .null => false
    | _ => true)

/-
Helper lemmas.
-/

theorem vsize_pos (v : Value) : 1 ≤ vsize v := by
  cases v <;> simp [vsize]

theorem vsize_lt_lsize_of_mem : ∀ {l : List Value} {v : Value},
    v ∈ l → vsize v < lsize l := by
  intro l
  induction l with
  | nil => intro v h; cases h
  | cons x xs ih =>
    intro v h
    rcases List.mem_cons.mp h with h1 | h2
    · subst h1; simp only [lsize]; omega
    · have := ih h2; simp only [lsize]; omega

theorem vsize_snd_lt_msize_of_mem : ∀ {m : List (String × Value)}
    {kv : String × Value}, kv ∈ m → vsize kv.2 < msize m := by
  intro m
  induction m with
  | nil => intro kv h; cases h
  | cons x xs ih =>
    intro kv h
    rcases List.mem_cons.mp h with h1 | h2
    · subst h1; simp only [msize]; omega
    · have := ih h2; simp only [msize]; omega

theorem wfList_mem {l : List Value} {v : Value} (hwf : wfList l = true)
    (h : v ∈ l) : wfValue v = true := by
  induction l with
  | nil => cases h
  | cons x xs ih =>
    simp only [wfList, Bool.and_eq_true] at hwf
    rcases List.mem_cons.mp h with h1 | h2
    · subst h1; exact hwf.1
    · exact ih hwf.2 h2

theorem wfMap_mem {m : List (String × Value)} {kv : String × Value}
    (hwf : wfMap m = true) (h : kv ∈ m) : wfValue kv.2 = true := by
  induction m with
  | nil => cases h
  | cons x xs ih =>
    simp only [wfMap, Bool.and_eq_true] at hwf
    rcases List.mem_cons.mp h with h1 | h2
    · subst h1; exact hwf.1.2
    · exact ih hwf.2 h2

theorem containsKey_of_mem {m : List (String × Value)} {k : String}
    {v : Value} (h : (k, v) ∈ m) : containsKey k m = true := by
  induction m with
  | nil => cases h
  | cons x xs ih =>
    rcases List.mem_cons.mp h with h1 | h2
    · simp only [containsKey, ← h1, Bool.or_eq_true]
      exact Or.inl (by simp)
    · simp only [containsKey, Bool.or_eq_true]
      exact Or.inr (ih h2)

theorem containsKey_exists {m : List (String × Value)} {k : String}
    (h : containsKey k m = true) : ∃ w, (k, w) ∈ m := by
  induction m with
  | nil => simp [containsKey] at h
  | cons x xs ih =>
    simp only [containsKey, Bool.or_eq_true] at h
    rcases h with h1 | h2
    · refine ⟨x.2, ?_⟩
      have : x.1 = k := by simpa using h1
      subst this
      exact List.mem_cons_self _ _
    · obtain ⟨w, hw⟩ := ih h2
      exact ⟨w, List.mem_cons_of_mem _ hw⟩

theorem lookupV_eq_none {m : List (String × Value)} {k : String}
    (h : containsKey k m = false) : lookupV k m = none := by
  induction m with
  | nil => rfl
  | cons x xs ih =>
    simp only [containsKey, Bool.or_eq_false_iff] at h
    simp only [lookupV, h.1, if_false]
    exact ih h.2

theorem lookupV_mem_wf {m : List (String × Value)} {k : String} {v : Value}
    (hwf : wfMap m = true) (h : (k, v) ∈ m) : lookupV k m = some v := by
  induction m with
  | nil => cases h
  | cons x xs ih =>
    simp only [wfMap, Bool.and_eq_true, Bool.not_eq_true'] at hwf
    rcases List.mem_cons.mp h with h1 | h2
    · simp only [lookupV, ← h1]
      simp
    · have hne : (x.1 == k) = false := by
        rw [beq_eq_false_iff_ne]
        intro hx1
        rw [hx1, containsKey_of_mem h2] at hwf
        exact absurd hwf.1.1 (by decide)
      simp only [lookupV, hne, if_false]
      exact ih hwf.2 h2

theorem key_unique_wf {m : List (String × Value)} {k : String} {v w : Value}
    (hwf : wfMap m = true) (hv : (k, v) ∈ m) (hw : (k, w) ∈ m) : v = w := by
  have h1 := lookupV_mem_wf hwf hv
  have h2 := lookupV_mem_wf hwf hw
  rw [h1] at h2
  exact Option.some.inj h2

theorem containsKey_filter {m : List (String × Value)} {k : String}
    {f : String × Value → Bool} (h : containsKey k (m.filter f) = true) :
    containsKey k m = true := by
  induction m with
  | nil => simpa using h
  | cons x xs ih =>
    simp only [List.filter_cons] at h
    by_cases hf : f x = true
    · rw [if_pos hf] at h
      simp only [containsKey, Bool.or_eq_true] at h ⊢
      rcases h with h1 | h2
      · exact Or.inl h1
      · exact Or.inr (ih h2)
    · rw [if_neg hf] at h
      simp only [containsKey, Bool.or_eq_true]
      exact Or.inr (ih h)

theorem wfMap_filter {m : List (String × Value)} {f : String × Value → Bool}
    (hwf : wfMap m = true) : wfMap (m.filter f) = true := by
  induction m with
  | nil => simpa using hwf
  | cons x xs ih =>
    simp only [wfMap, Bool.and_eq_true, Bool.not_eq_true'] at hwf
    simp only [List.filter_cons]
    by_cases hf : f x = true
    · rw [if_pos hf]
      simp only [wfMap, Bool.and_eq_true, Bool.not_eq_true']
      refine ⟨⟨?_, hwf.1.2⟩, ih hwf.2⟩
      by_contra hck
      have hck2 : containsKey x.1 (xs.filter f) = true := by
        simpa using (Bool.not_eq_false _).mp hck
      rw [containsKey_filter hck2] at hwf
      exact absurd hwf.1.1 (by simp)
    · rw [if_neg hf]
      exact ih hwf.2

theorem removeOneP_head {p : α → Bool} {x : α} {xs : List α}
    (h : p x = true) : removeOneP p (x :: xs) = some xs := by
  simp [removeOneP, h]

theorem listPermEqWith_refl {eq : Value → Value → Bool} {l : List Value}
    (h : ∀ x ∈ l, eq x x = true) : listPermEqWith eq l l = true := by
  induction l with
  | nil => rfl
  | cons x xs ih =>
    have hx : eq x x = true := h x (List.mem_cons_self _ _)
    simp only [listPermEqWith, removeOneP_head hx]
    exact ih (fun y hy => h y (List.mem_cons_of_mem _ hy))

theorem mapEqWith_refl {eq : Value → Value → Bool}
    {m : List (String × Value)} (hwf : wfMap m = true)
    (h : ∀ kv ∈ m, eq kv.2 kv.2 = true) : mapEqWith eq m m = true := by
  simp only [mapEqWith, Bool.and_eq_true, List.all_eq_true]
  constructor
  · intro kv hkv
    have : lookupV kv.1 m = some kv.2 := by
      apply lookupV_mem_wf hwf
      simpa using hkv
    rw [this]
    exact h kv hkv
  · intro kv hkv
    have : lookupV kv.1 m = some kv.2 := by
      apply lookupV_mem_wf hwf
      simpa using hkv
    simp [this]

theorem valueEqD_refl : ∀ (d : Nat) (v : Value), wfValue v = true →
    vsize v ≤ d → valueEqD d v v = true := by
  intro d
  induction d with
  | zero =>
    intro v _ hsz
    exact absurd (lt_of_lt_of_le (Nat.lt_of_lt_of_le Nat.zero_lt_one (vsize_pos v)) hsz)
      (by omega)
  | succ d ih =>
    intro v hwf hsz
    cases v with
    | null => rfl
    | str s => simp [valueEqD]
    | int n => simp [valueEqD]
    | list a =>
      simp only [valueEqD]
      apply listPermEqWith_refl
      intro x hx
      apply ih x (wfList_mem (by simpa [wfValue] using hwf) hx)
      have h1 : vsize x < lsize a := vsize_lt_lsize_of_mem hx
      have h2 : vsize (Value.list a) = 1 + lsize a := by simp [vsize]
      omega
    | map a =>
      simp only [valueEqD]
      apply mapEqWith_refl (by simpa [wfValue] using hwf)
      intro kv hkv
      apply ih kv.2 (wfMap_mem (by simpa [wfValue] using hwf) hkv)
      have h1 : vsize kv.2 < msize a := vsize_snd_lt_msize_of_mem hkv
      have h2 : vsize (Value.map a) = 1 + msize a := by simp [vsize]
      omega

theorem diffEmpty_refl {m : Payload} (hwf : wfMap m = true) :
    diffEmpty m m = true := by
  unfold diffEmpty
  apply mapEqWith_refl hwf
  intro kv hkv
  apply valueEqD_refl _ _ (wfMap_mem hwf hkv)
  have := vsize_snd_lt_msize_of_mem hkv
  omega

theorem pyEqV_null_left {v : Value} (h : v ≠ .null) : pyEqV .null v = false := by
  cases v with
  | null => exact absurd rfl h
  | str s => rfl
  | int n => rfl
  | list a => rfl
  | map a => rfl

theorem lookupV_stripFalsy {p : Payload} {k : String} {v : Value}
    (hwf : wfMap p = true) (hmem : (k, v) ∈ p) (hf : pyTruthyV v = false) :
    lookupV k (stripFalsy p) = none := by
  apply lookupV_eq_none
  by_contra hck
  have hck2 : containsKey k (stripFalsy p) = true := by
    simpa using (Bool.not_eq_false _).mp hck
  obtain ⟨w, hw⟩ := containsKey_exists hck2
  have hw2 := List.mem_filter.mp hw
  have : v = w := key_unique_wf hwf hmem hw2.1
  subst this
  rw [hf] at hw2
  exact Bool.false_ne_true hw2.2

theorem noNullTop_mem {p : Payload} {kv : String × Value}
    (hnn : noNullTop p = true) (h : kv ∈ p) : kv.2 ≠ .null := by
  simp only [noNullTop, List.all_eq_true] at hnn
  have := hnn kv h
  intro hc
  rw [hc] at this
  exact Bool.false_ne_true this

theorem filterPayload_stripFalsy {p : Payload} (hwf : wfMap p = true)
    (hnn : noNullTop p = true) :
    filterPayload (stripFalsy p) p = stripFalsy p := by
  show p.filter (keepCond (stripFalsy p)) = p.filter (fun kv => pyTruthyV kv.2)
  apply List.filter_congr
  intro kv hkv
  cases htv : pyTruthyV kv.2 with
  | true => simp [keepCond, htv]
  | false =>
    have hmem : (kv.1, kv.2) ∈ p := by simpa using hkv
    have hnone : lookupV kv.1 (stripFalsy p) = none :=
      lookupV_stripFalsy hwf hmem htv
    have hv : kv.2 ≠ .null := noNullTop_mem hnn hkv
    show keepCond (stripFalsy p) kv = false
    unfold keepCond metaGet
    rw [hnone, Option.getD_none, htv, pyEqV_null_left hv]
    rfl

/-
Claim theorems.
-/

/-- C6: when the probe returns a status other than 200 and 404,
`register_or_update` issues neither a PUT nor a PATCH and returns the
unexpected probe response itself to its caller. -/
theorem C6_unexpected_probe_no_write (payload : Payload)
    (probe : ProbeResponse) (writeStatus : Nat)
    (h200 : probe.status ≠ 200) (h404 : probe.status ≠ 404) :
    (register_or_update payload probe writeStatus).action = .nothing ∧
    (register_or_update payload probe writeStatus).status = probe.status := by
  have h1 : (probe.status == 404) = false := beq_eq_false_iff_ne.mpr h404
  have h2 : (probe.status == 200) = false := beq_eq_false_iff_ne.mpr h200
  simp [register_or_update, h1, h2]

/-- C6 witness: a 500 probe issues no write and is returned as-is. -/
theorem C6_unexpected_probe_no_write_witness :
    (register_or_update [("title", Value.str "A")] ⟨500, []⟩ 200).action
      = .nothing ∧
    (register_or_update [("title", Value.str "A")] ⟨500, []⟩ 200).status = 500 :=
  C6_unexpected_probe_no_write _ _ _ (by decide) (by decide)

/-- C7: when the probe returns 404, `register_or_update` issues a PUT
whose body is exactly the payload restricted to its truthy-valued keys, so
the PUT body never contains an empty-valued key. -/
theorem C7_create_strips_falsy (payload : Payload) (probe : ProbeResponse)
    (writeStatus : Nat) (h : probe.status = 404) :
    (register_or_update payload probe writeStatus).action =
      .put (payload.filter (fun kv => pyTruthyV kv.2)) ∧
    ∀ kv ∈ payload.filter (fun kv => pyTruthyV kv.2), pyTruthyV kv.2 = true := by
  constructor
  · simp [register_or_update, h, stripFalsy]
  · intro kv hkv
    exact (List.mem_filter.mp hkv).2

/-- C7 witness: a journal-like payload with empty mission and sponsors is
created with exactly its truthy keys. -/
theorem C7_create_strips_falsy_witness :
    (register_or_update
      [("title", Value.str "E"), ("mission", Value.list []),
       ("sponsors", Value.list [])] ⟨404, []⟩ 201).action =
      .put ([("title", Value.str "E"), ("mission", Value.list []),
        ("sponsors", Value.list [])].filter (fun kv => pyTruthyV kv.2)) ∧
    ∀ kv ∈ [("title", Value.str "E"), ("mission", Value.list []),
        ("sponsors", Value.list [])].filter (fun kv => pyTruthyV kv.2),
      pyTruthyV kv.2 = true :=
  C7_create_strips_falsy _ _ _ rfl

/-- C2: reconciling twice with the same payload and no third-party
mutation of the remote entity is idempotent: starting from an absent
entity the first run PUTs the stripped payload and the second run finds
an empty diff and issues no write; starting from a present entity that
already matched (first run issues no write), the second run issues no
write either.  The hypotheses state that the payload is a Python dict
(distinct keys at every nesting level) with no None value at top level,
which holds for every payload the normalizers produce. -/
theorem C2_reconcile_idempotent (p : Payload) (m : Payload)
    (ws1 ws2 ws3 ws4 : Nat) (hwf : wfMap p = true) (hnn : noNullTop p = true) :
    (register_or_update p (probeOf .absent) ws1).action = .put (stripFalsy p) ∧
    (register_or_update p (probeOf (applyAction
        (register_or_update p (probeOf .absent) ws1).action .absent)) ws2).action
      = .nothing ∧
    ((register_or_update p (probeOf (.present m)) ws3).action = .nothing →
      (register_or_update p (probeOf (.present m)) ws4).action = .nothing) := by
  refine ⟨rfl, ?_, ?_⟩
  · show (register_or_update p ⟨200, stripFalsy p⟩ ws2).action = .nothing
    have hfp : filterPayload (stripFalsy p) p = stripFalsy p :=
      filterPayload_stripFalsy hwf hnn
    have hde : diffEmpty (stripFalsy p) (filterPayload (stripFalsy p) p) = true := by
      rw [hfp]
      exact diffEmpty_refl (wfMap_filter hwf)
    simp [register_or_update, hde]
  · intro h
    cases hcond : diffEmpty m (filterPayload m p) with
    | true => simp [register_or_update, probeOf, hcond]
    | false => simp [register_or_update, probeOf, hcond] at h

/-- C2 witness: a concrete payload with one truthy and one falsy key is
created on the first run and left unchanged on the second. -/
theorem C2_reconcile_idempotent_witness :
    (register_or_update [("title", Value.str "A"), ("mission", Value.list [])]
      (probeOf .absent) 1).action =
      .put (stripFalsy [("title", Value.str "A"), ("mission", Value.list [])]) ∧
    (register_or_update [("title", Value.str "A"), ("mission", Value.list [])]
      (probeOf (applyAction
        (register_or_update [("title", Value.str "A"), ("mission", Value.list [])]
          (probeOf .absent) 1).action .absent)) 2).action = .nothing ∧
    ((register_or_update [("title", Value.str "A"), ("mission", Value.list [])]
      (probeOf (.present [])) 3).action = .nothing →
      (register_or_update [("title", Value.str "A"), ("mission", Value.list [])]
        (probeOf (.present [])) 4).action = .nothing) :=
  C2_reconcile_idempotent _ _ _ _ _ _ (by decide) (by decide)

/-- C1 counterexample: with remote metadata title "A", acronym "X" and new
payload title "A", acronym "", the 200-branch keeps the acronym key with
its empty local value, the diff against the remote metadata is non-empty,
and a PATCH carrying the empty value is issued — contradicting the claim
that the diff is empty and no PATCH is issued. -/
theorem C1_counterexample :
    (register_or_update [("title", Value.str "A"), ("acronym", Value.str "")]
      ⟨200, [("title", Value.str "A"), ("acronym", Value.str "X")]⟩ 200).action
    = .patch [("title", Value.str "A"), ("acronym", Value.str "")] := rfl

/-- C1 amended: when the remote metadata maps a key to a non-empty value
and the new payload maps that key to the empty string while the other key
is equal, the filtered payload retains the key with the empty local
value, the diff is non-empty, and a PATCH carrying the empty value is
issued (the empty new value does overwrite the remote value). -/
theorem C1_amended_empty_value_is_patched (t x : String) (hx : x ≠ "") :
    (register_or_update [("title", Value.str t), ("acronym", Value.str "")]
      ⟨200, [("title", Value.str t), ("acronym", Value.str x)]⟩ 200).action
    = .patch [("title", Value.str t), ("acronym", Value.str "")] := by
  have hxf : (x == "") = false := beq_eq_false_iff_ne.mpr hx
  simp [register_or_update, filterPayload, keepCond, metaGet, lookupV,
    diffEmpty, mapEqWith, valueEqD, pyEqV, pyEqD, pyTruthyV, vsize, msize, hxf]

/-- C1 amended witness: the concrete instance with remote acronym "X". -/
theorem C1_amended_empty_value_is_patched_witness :
    (register_or_update [("title", Value.str "A"), ("acronym", Value.str "")]
      ⟨200, [("title", Value.str "A"), ("acronym", Value.str "X")]⟩ 200).action
    = .patch [("title", Value.str "A"), ("acronym", Value.str "")] :=
  C1_amended_empty_value_is_patched "A" "X" (by decide)

theorem joinDash_four (a b c d : String) :
    joinDash [a, b, c, d] = a ++ "-" ++ (b ++ "-" ++ (c ++ "-" ++ d)) := rfl

theorem issue_id_all_some (i y a b : String) (hi : i ≠ "") (hy : y ≠ "")
    (ha : a ≠ "") (hb : b ≠ "") :
    issue_id (some i) (some y) (some a) (some b) none
      = joinDash [i, y, "v" ++ digitNormalize a, "n" ++ digitNormalize b] := by
  simp [issue_id, List.filterMap_cons, optTruthy, hi, hy, ha, hb]

/-- C4: the bundle identity is invariant under leading zeros in all-digit
volume and number components; with a non-empty issn and year both spellings
normalize to issn-year-v1-n2 (written with explicit appends). -/
theorem C4_bundle_id_leading_zeros (issn year : String)
    (hi : issn ≠ "") (hy : year ≠ "") :
    issue_id (some issn) (some year) (some "01") (some "2") none
      = issn ++ "-" ++ year ++ "-v1-n2" ∧
    issue_id (some issn) (some year) (some "1") (some "02") none
      = issn ++ "-" ++ year ++ "-v1-n2" := by
  have hjoin : ∀ a b : String,
      joinDash [a, b, "v1", "n2"] = a ++ "-" ++ b ++ "-v1-n2" := by
    intro a b
    rw [joinDash_four]
    rw [(by decide : ("v1" ++ "-" ++ "n2" : String) = "v1-n2")]
    rw [String.append_assoc b "-" "v1-n2"]
    rw [(by decide : ("-" ++ "v1-n2" : String) = "-v1-n2")]
    rw [← String.append_assoc (a ++ "-") b "-v1-n2"]
  constructor
  · rw [issue_id_all_some issn year "01" "2" hi hy (by decide) (by decide)]
    rw [(by decide : digitNormalize "01" = "1"),
      (by decide : digitNormalize "2" = "2")]
    exact hjoin issn year
  · rw [issue_id_all_some issn year "1" "02" hi hy (by decide) (by decide)]
    rw [(by decide : digitNormalize "1" = "1"),
      (by decide : digitNormalize "02" = "2")]
    exact hjoin issn year

/-- C4 witness: the concrete instance at issn 0001-0002, year 2019. -/
theorem C4_bundle_id_leading_zeros_witness :
    issue_id (some "0001-0002") (some "2019") (some "01") (some "2") none
      = "0001-0002" ++ "-" ++ "2019" ++ "-v1-n2" ∧
    issue_id (some "0001-0002") (some "2019") (some "1") (some "02") none
      = "0001-0002" ++ "-" ++ "2019" ++ "-v1-n2" :=
  C4_bundle_id_leading_zeros "0001-0002" "2019" (by decide) (by decide)

theorem issue_as_kernel_ok {rec : IssueRec} {p : Payload}
    (h : issue_as_kernel rec = .ok p) :
    ∃ season issn year, seasonOf rec = .ok season ∧ rec.v35 = some issn ∧
      parse_date_year rec.publication_date = some year ∧
      p = issuePayload0 rec season ++
        [("_id", .str (issue_id (some issn) (some (toString year))
          rec.volume rec.number
          (match lookupV "supplement" (issuePayload0 rec season) with
           | some (.str s) => some s
           | _ => none)))] := by
  unfold issue_as_kernel at h
  cases hs : seasonOf rec with
  | error e => simp [hs] at h
  | ok season =>
    simp only [hs] at h
    cases hv : rec.v35 with
    | none => simp [hv] at h
    | some issn =>
      simp only [hv] at h
      cases hy : parse_date_year rec.publication_date with
      | none => simp [hy] at h
      | some year =>
        simp only [hy, Except.ok.injEq] at h
        exact ⟨season, issn, year, rfl, rfl, rfl, h.symm⟩

/-- C5: the normalized issue payload binds the key supplement exactly when
the record's type tag is "supplement"; the bound value is the
supplement-volume indicator, else the supplement-number indicator, else
the literal "0"; for any other type the key is absent even when the
supplement indicators are set. -/
theorem C5_supplement_gating (rec : IssueRec) (p : Payload)
    (h : issue_as_kernel rec = .ok p) :
    (rec.type = "supplement" →
      lookupV "supplement" p = some (.str
        (orStr rec.supplement_volume (orStr rec.supplement_number "0")))) ∧
    (rec.type ≠ "supplement" → lookupV "supplement" p = none) := by
  obtain ⟨season, issn, year, hs, hv, hy, hp⟩ := issue_as_kernel_ok h
  subst hp
  constructor
  · intro ht
    have htb : (rec.type == "supplement") = true := beq_iff_eq.mpr ht
    simp [issuePayload0, lookupV, htb]
  · intro ht
    have htb : (rec.type == "supplement") = false := beq_eq_false_iff_ne.mpr ht
    simp [issuePayload0, lookupV, htb]

/-- C5 witness: a supplement-typed record with only a supplement-number
indicator binds supplement to it; the instantiation also fixes one
concrete ok payload. -/
theorem C5_supplement_gating_witness :
    (("supplement" : String) = "supplement" →
      lookupV "supplement" (issuePayload0
        ⟨some "4", none, "supplement", none, some "2", [], none, none,
          "1999-01-05", some "0001-0002"⟩ [] ++
        [("_id", Value.str "0001-0002-1999-v4-s2")]) = some (Value.str
          (orStr (none : Option String) (orStr (some "2") "0")))) ∧
    (("supplement" : String) ≠ "supplement" →
      lookupV "supplement" (issuePayload0
        ⟨some "4", none, "supplement", none, some "2", [], none, none,
          "1999-01-05", some "0001-0002"⟩ [] ++
        [("_id", Value.str "0001-0002-1999-v4-s2")]) = none) :=
  C5_supplement_gating
    ⟨some "4", none, "supplement", none, some "2", [], none, none,
      "1999-01-05", some "0001-0002"⟩ _ rfl

/-- C9: for a record whose type is not "supplement", the bundle id stored
at the key _id is computed with the supplement argument absent — the raw
supplement indicators of the record never reach `issue_id`, because the
argument is read back from the gated payload. -/
theorem C9_nonsupplement_id_without_s (rec : IssueRec) (p : Payload)
    (issn : String) (year : Nat) (h : issue_as_kernel rec = .ok p)
    (ht : rec.type ≠ "supplement") (hv : rec.v35 = some issn)
    (hy : parse_date_year rec.publication_date = some year) :
    lookupV "_id" p = some (.str (issue_id (some issn) (some (toString year))
      rec.volume rec.number none)) := by
  obtain ⟨season, issn2, year2, hs, hv2, hy2, hp⟩ := issue_as_kernel_ok h
  obtain rfl : issn2 = issn := by
    rw [hv] at hv2
    exact (Option.some.inj hv2).symm
  obtain rfl : year2 = year := by
    rw [hy] at hy2
    exact (Option.some.inj hy2).symm
  subst hp
  have htb : (rec.type == "supplement") = false := beq_eq_false_iff_ne.mpr ht
  simp [issuePayload0, lookupV, htb]

/-- C9 witness: a regular-typed record with a supplement-number indicator
set still gets an id with no s component. -/
theorem C9_nonsupplement_id_without_s_witness :
    lookupV "_id" (issuePayload0
      ⟨some "3", some "2", "regular", none, some "9", [], none, none,
        "2019", some "0001-0002"⟩ [] ++
      [("_id", Value.str (issue_id (some "0001-0002") (some "2019")
        (some "3") (some "2") none))]) =
    some (Value.str (issue_id (some "0001-0002") (some (toString 2019))
      (some "3") (some "2") none)) :=
  C9_nonsupplement_id_without_s
    ⟨some "3", some "2", "regular", none, some "9", [], none, none,
      "2019", some "0001-0002"⟩ _ "0001-0002" 2019 rfl (by decide) rfl rfl

theorem mapExcept_error_of_mem {f : α → Except ε β} :
    ∀ {l : List α} {x : α} {e : ε}, x ∈ l → f x = .error e →
      ∃ e2, mapExcept f l = .error e2 := by
  intro l
  induction l with
  | nil => intro x e h; cases h
  | cons a as ih =>
    intro x e hmem herr
    rcases List.mem_cons.mp hmem with h1 | h2
    · subst h1
      exact ⟨e, by simp [mapExcept, herr]⟩
    · cases ha : f a with
      | error ea => exact ⟨ea, by simp [mapExcept, ha]⟩
      | ok ya =>
        obtain ⟨e2, he2⟩ := ih h2 herr
        exact ⟨e2, by simp [mapExcept, ha, he2]⟩

/-- A record whose normalization fails: the v35 journal cross reference is
missing, so `issue_as_kernel` raises. -/
def brokenIssue : IssueRec :=
  ⟨none, none, "regular", none, none, [], none, none, "2019", none⟩

/-- A record whose normalization succeeds. -/
def plainIssue : IssueRec :=
  ⟨some "3", some "2", "regular", none, none, [], none, none, "2019",
    some "0001-0002"⟩

/-- C3 counterexample: with an input stream of one broken record followed
by one well-formed record, the batch returns a batch-level error: the
subsequent record is not processed and no per-entity outcomes are
collected, contradicting the claim that one entity's failure does not
prevent processing of subsequent entities. -/
theorem C3_counterexample :
    process_issues (.ok [brokenIssue, plainIssue]) (fun _ => ⟨404, []⟩) 201
      = .error "missing v35" := rfl

/-- C3 amended: the batch driver computes all payloads in one list
comprehension before any write, so a single entity whose normalization
fails aborts the whole batch with that entity's error and no per-entity
outcome is collected; a batch whose input stream cannot be obtained also
fails as a whole. -/
theorem C3_amended_single_failure_aborts_batch (recs : List IssueRec)
    (probeFor : Value → ProbeResponse) (ws : Nat) (r : IssueRec) (e : String)
    (hmem : r ∈ filter_issues recs) (herr : issue_as_kernel r = .error e) :
    (∃ e2, process_issues (.ok recs) probeFor ws = .error e2) ∧
    (∀ e3, process_issues (.error e3) probeFor ws = .error e3) := by
  constructor
  · obtain ⟨e2, he2⟩ := mapExcept_error_of_mem hmem herr
    exact ⟨e2, by simp [process_issues, he2]⟩
  · intro e3
    rfl

/-- C3 amended witness: the two-record batch aborts with the first
record's decode error. -/
theorem C3_amended_single_failure_aborts_batch_witness :
    (∃ e2, process_issues (.ok [brokenIssue, plainIssue])
      (fun _ => ⟨404, []⟩) 201 = .error e2) ∧
    (∀ e3, process_issues (.error e3) (fun _ => ⟨404, []⟩) 201 = .error e3) :=
  C3_amended_single_failure_aborts_batch [brokenIssue, plainIssue] _ _
    brokenIssue "missing v35"
    (by rw [(rfl : filter_issues [brokenIssue, plainIssue]
        = [brokenIssue, plainIssue])]; exact List.mem_cons_self _ _) rfl

/-- The fully-empty legacy journal record: every optional field absent. -/
def emptyJournal : JournalRec :=
  ⟨none, none, [], none, none, none, none, none, none, [], [], [], [],
   none, none, none, none, none⟩

/-- C8 counterexample: on a journal record with no ISSN at all, the _id
key is bound to Python None — not to an empty string, empty list or
empty mapping — so the claim that an absent source field always appears
as one of the three empty representations fails at _id. -/
theorem C8_counterexample :
    lookupV "_id" (journal_as_kernel emptyJournal) = some Value.null ∧
    Value.null ≠ Value.str "" ∧ Value.null ≠ Value.list [] ∧
    Value.null ≠ Value.map [] :=
  ⟨rfl, fun h => Value.noConfusion h, fun h => Value.noConfusion h,
   fun h => Value.noConfusion h⟩

/-- C8 amended: every fixed journal schema key is always present in fixed
order, and a field absent from the source appears as an empty string,
empty list or empty mapping — with the one exception the code exhibits:
_id is bound to Python None when the record has no ISSN at all.  For
issues, every schema key except supplement is always present (supplement
exactly on supplement-typed records) and absent fields appear as empty
values. -/
theorem C8_amended_schema_keys (j : JournalRec) (rec : IssueRec)
    (p : Payload) (h : issue_as_kernel rec = .ok p) :
    (journal_as_kernel j).map Prod.fst = ["_id", "mission", "title",
      "title_iso", "short_title", "acronym", "scielo_issn", "print_issn",
      "electronic_issn", "status", "subject_areas", "sponsors",
      "subject_categories", "online_submission_url", "next_journal",
      "previous_journal", "contact"] ∧
    (j.mission = [] →
      lookupV "mission" (journal_as_kernel j) = some (.list [])) ∧
    (j.title = none → lookupV "title" (journal_as_kernel j) = some (.str "")) ∧
    (j.abbreviated_iso_title = none →
      lookupV "title_iso" (journal_as_kernel j) = some (.str "")) ∧
    (j.abbreviated_title = none →
      lookupV "short_title" (journal_as_kernel j) = some (.str "")) ∧
    (j.acronym = none →
      lookupV "acronym" (journal_as_kernel j) = some (.str "")) ∧
    (j.scielo_issn = none →
      lookupV "scielo_issn" (journal_as_kernel j) = some (.str "")) ∧
    (j.print_issn = none →
      lookupV "print_issn" (journal_as_kernel j) = some (.str "")) ∧
    (j.electronic_issn = none →
      lookupV "electronic_issn" (journal_as_kernel j) = some (.str "")) ∧
    (j.status_history = [] →
      lookupV "status" (journal_as_kernel j) = some (.map [])) ∧
    (j.subject_areas = [] →
      lookupV "subject_areas" (journal_as_kernel j) = some (.list [])) ∧
    (j.sponsors = [] →
      lookupV "sponsors" (journal_as_kernel j) = some (.list [])) ∧
    (j.wos_subject_areas = [] →
      lookupV "subject_categories" (journal_as_kernel j) = some (.list [])) ∧
    (j.submission_url = none →
      lookupV "online_submission_url" (journal_as_kernel j) = some (.str "")) ∧
    (j.next_title = none →
      lookupV "next_journal" (journal_as_kernel j) = some (.map [])) ∧
    (j.previous_title = none →
      lookupV "previous_journal" (journal_as_kernel j) = some (.map [])) ∧
    (j.editor_email = none → j.editor_address = none →
      lookupV "contact" (journal_as_kernel j) = some (.map [])) ∧
    (optTruthy j.any_issn = none → j.scielo_issn = none →
      lookupV "_id" (journal_as_kernel j) = some .null) ∧
    (rec.type ≠ "supplement" → p.map Prod.fst =
      ["volume", "number", "titles", "publication_season", "_id"]) ∧
    (rec.type = "supplement" → p.map Prod.fst =
      ["volume", "number", "supplement", "titles", "publication_season",
       "_id"]) ∧
    (rec.volume = none → lookupV "volume" p = some (.str "")) ∧
    (rec.number = none → lookupV "number" p = some (.str "")) ∧
    (rec.titles = [] → lookupV "titles" p = some (.list [])) ∧
    (rec.start_month = none →
      lookupV "publication_season" p = some (.list [])) := by
  obtain ⟨season, issn, year, hs, hv, hy, hp⟩ := issue_as_kernel_ok h
  subst hp
  refine ⟨rfl, ?_, ?_, ?_, ?_, ?_, ?_, ?_, ?_, ?_, ?_, ?_, ?_, ?_, ?_, ?_,
    ?_, ?_, ?_, ?_, ?_, ?_, ?_, ?_⟩
  · intro hm; simp [journal_as_kernel, lookupV, hm]
  · intro hm; simp [journal_as_kernel, lookupV, orEmpty, hm]
  · intro hm; simp [journal_as_kernel, lookupV, orEmpty, hm]
  · intro hm; simp [journal_as_kernel, lookupV, orEmpty, hm]
  · intro hm; simp [journal_as_kernel, lookupV, orEmpty, hm]
  · intro hm; simp [journal_as_kernel, lookupV, orEmpty, hm]
  · intro hm; simp [journal_as_kernel, lookupV, orEmpty, hm]
  · intro hm; simp [journal_as_kernel, lookupV, orEmpty, hm]
  · intro hm; simp [journal_as_kernel, lookupV, statusValue, hm]
  · intro hm; simp [journal_as_kernel, lookupV, hm]
  · intro hm; simp [journal_as_kernel, lookupV, hm]
  · intro hm; simp [journal_as_kernel, lookupV, hm]
  · intro hm; simp [journal_as_kernel, lookupV, orEmpty, hm]
  · intro hm; simp [journal_as_kernel, lookupV, optTruthy, hm]
  · intro hm; simp [journal_as_kernel, lookupV, optTruthy, hm]
  · intro h1 h2
    simp [journal_as_kernel, lookupV, contactValue, optTruthy, h1, h2]
  · intro h1 h2; simp [journal_as_kernel, lookupV, idValue, h1, h2]
  · intro ht
    have htb : (rec.type == "supplement") = false := beq_eq_false_iff_ne.mpr ht
    simp [issuePayload0, htb]
  · intro ht
    have htb : (rec.type == "supplement") = true := beq_iff_eq.mpr ht
    simp [issuePayload0, htb]
  · intro hm
    cases htb : rec.type == "supplement" <;>
      simp [issuePayload0, lookupV, htb, orEmpty, hm]
  · intro hm
    cases htb : rec.type == "supplement" <;>
      simp [issuePayload0, lookupV, htb, orEmpty, hm]
  · intro hm
    cases htb : rec.type == "supplement" <;>
      simp [issuePayload0, lookupV, htb, hm]
  · intro hm
    have h0 : seasonOf rec = .ok [] := by
      simp [seasonOf, pyTruthyS, orEmpty, hm]
    rw [h0] at hs
    obtain rfl : season = [] := (Except.ok.inj hs).symm
    cases htb : rec.type == "supplement" <;>
      simp [issuePayload0, lookupV, htb]

/-- C8 amended witness: the full key list of the fully-empty journal
record, via the amended theorem at a concrete issue record. -/
theorem C8_amended_schema_keys_witness :
    (journal_as_kernel emptyJournal).map Prod.fst = ["_id", "mission",
      "title", "title_iso", "short_title", "acronym", "scielo_issn",
      "print_issn", "electronic_issn", "status", "subject_areas",
      "sponsors", "subject_categories", "online_submission_url",
      "next_journal", "previous_journal", "contact"] :=
  (C8_amended_schema_keys emptyJournal plainIssue _ rfl).1

end KernelGate
